import Mathlib

/-!
Shallow embedding of the prelexa-be document pipeline (backend/app of the
repository) and proofs about its claimed properties.

The embedding works over `List Char` / `String` for the text-processing
helpers, models the record store as explicit lists of records, and models
each oracle (LLM) call as an explicit parameter or environment field: `none`
means the call raised, `some x` means it returned `x`.
-/

namespace Prelexa

/-- JSON values, the result type of Python's `json.loads`.  Objects are kept
as ordered association lists (CPython dicts preserve insertion order; no
input in this development has duplicate keys).  Numbers are restricted to
integers: every numeric literal handled by the verified claims is an
integer, so the float fragment of the grammar is out of scope and the
parser rejects it. -/
inductive JsonVal where
  | null : JsonVal
  | bool : Bool → JsonVal
  | num : Int → JsonVal
  | str : String → JsonVal
  | arr : List JsonVal → JsonVal
  | obj : List (String × JsonVal) → JsonVal

/-- Python `\s` / `str.strip` whitespace class (space, tab, newline,
carriage return, vertical tab, form feed). -/
def pyWs (c : Char) : Bool :=
  c = ' ' || c = '\t' || c = '\n' || c = '\r' || c = '\x0b' || c = '\x0c'

/-- Python `str.strip()` with no arguments. -/
def pyStrip (s : String) : String :=
  String.mk (((s.data.dropWhile pyWs).reverse.dropWhile pyWs).reverse)

/-- Python `str.lower()` (ASCII fragment). -/
def pyLower (s : String) : String :=
  String.mk (s.data.map Char.toLower)

/-- JSON whitespace accepted by `json.loads` between tokens. -/
def jsonWs (c : Char) : Bool :=
  c = ' ' || c = '\t' || c = '\n' || c = '\r'

/-- Digits of a natural number literal folded to its value. -/
def digitsToNat (ds : List Char) : Nat :=
  ds.foldl (fun acc c => 10 * acc + (c.toNat - 48)) 0

/-- Parse a JSON integer literal (strict grammar: no leading zeros, and a
following `.`/`e`/`E` — a float — is rejected, see `JsonVal`). -/
def parseIntBody (l : List Char) : Option (Int × List Char) :=
  let (neg, l') := match l with
    | '-' :: rest => (true, rest)
    | _ => (false, l)
  let ds := l'.takeWhile Char.isDigit
  let rest := l'.dropWhile Char.isDigit
  if ds = [] then none
  else if ds.length > 1 && ds.headD '0' = '0' then none
  else match rest with
    | '.' :: _ => none
    | 'e' :: _ => none
    | 'E' :: _ => none
    | _ =>
      let n : Int := Int.ofNat (digitsToNat ds)
      some (if neg then -n else n, rest)

/-- Value of a hexadecimal digit, if any (code points 0-9, a-f, A-F). -/
def hexVal (c : Char) : Option Nat :=
  let n := c.toNat
  if 48 ≤ n ∧ n ≤ 57 then some (n - 48)
  else if 97 ≤ n ∧ n ≤ 102 then some (n - 87)
  else if 65 ≤ n ∧ n ≤ 70 then some (n - 55)
  else none

/-- Body of a JSON string literal (after the opening quote): returns the
decoded characters and the remaining input.  Unescaped control characters
are rejected, as in strict-mode `json.loads`. -/
def parseStringBody : List Char → Option (List Char × List Char)
  | [] => none
  | '"' :: rest => some ([], rest)
  | '\\' :: e :: rest =>
    match e, rest with
    | '"', r => (parseStringBody r).map (fun (s, r') => ('"' :: s, r'))
    | '\\', r => (parseStringBody r).map (fun (s, r') => ('\\' :: s, r'))
    | '/', r => (parseStringBody r).map (fun (s, r') => ('/' :: s, r'))
    | 'b', r => (parseStringBody r).map (fun (s, r') => ('\x08' :: s, r'))
    | 'f', r => (parseStringBody r).map (fun (s, r') => ('\x0c' :: s, r'))
    | 'n', r => (parseStringBody r).map (fun (s, r') => ('\n' :: s, r'))
    | 'r', r => (parseStringBody r).map (fun (s, r') => ('\r' :: s, r'))
    | 't', r => (parseStringBody r).map (fun (s, r') => ('\t' :: s, r'))
    | 'u', h1 :: h2 :: h3 :: h4 :: r =>
      match hexVal h1, hexVal h2, hexVal h3, hexVal h4 with
      | some a, some b, some c, some d =>
        let code := ((a * 16 + b) * 16 + c) * 16 + d
        (parseStringBody r).map (fun (s, r') => (Char.ofNat code :: s, r'))
      | _, _, _, _ => none
    | _, _ => none
  | c :: rest =>
    if c.toNat < 0x20 then none
    else (parseStringBody rest).map (fun (s, r') => (c :: s, r'))

mutual

/-- One JSON value, fuel-indexed recursive descent mirroring the grammar
`json.loads` accepts (modulo the integer restriction of `JsonVal`). -/
def parseValue : Nat → List Char → Option (JsonVal × List Char)
  | 0, _ => none
  | fuel + 1, l =>
    match l.dropWhile jsonWs with
    | '{' :: rest =>
      (match rest.dropWhile jsonWs with
       | '}' :: r => some (JsonVal.obj [], r)
       | _ => parseMembers fuel rest [])
    | '[' :: rest =>
      (match rest.dropWhile jsonWs with
       | ']' :: r => some (JsonVal.arr [], r)
       | _ => parseElems fuel rest [])
    | '"' :: rest =>
      (parseStringBody rest).map (fun (s, r) => (JsonVal.str (String.mk s), r))
    | 't' :: 'r' :: 'u' :: 'e' :: rest => some (JsonVal.bool true, rest)
    | 'f' :: 'a' :: 'l' :: 's' :: 'e' :: rest => some (JsonVal.bool false, rest)
    | 'n' :: 'u' :: 'l' :: 'l' :: rest => some (JsonVal.null, rest)
    | l' => (parseIntBody l').map (fun (n, r) => (JsonVal.num n, r))

/-- Members of a JSON object, after the opening `{` (nonempty case). -/
def parseMembers : Nat → List Char → List (String × JsonVal) →
    Option (JsonVal × List Char)
  | 0, _, _ => none
  | fuel + 1, l, acc =>
    match l.dropWhile jsonWs with
    | '"' :: r =>
      match parseStringBody r with
      | none => none
      | some (key, r2) =>
        match r2.dropWhile jsonWs with
        | ':' :: r3 =>
          match parseValue fuel r3 with
          | none => none
          | some (v, r4) =>
            match r4.dropWhile jsonWs with
            | ',' :: r5 => parseMembers fuel r5 (acc ++ [(String.mk key, v)])
            | '}' :: r5 => some (JsonVal.obj (acc ++ [(String.mk key, v)]), r5)
            | _ => none
        | _ => none
    | _ => none

/-- Elements of a JSON array, after the opening `[` (nonempty case). -/
def parseElems : Nat → List Char → List JsonVal → Option (JsonVal × List Char)
  | 0, _, _ => none
  | fuel + 1, l, acc =>
    match parseValue fuel l with
    | none => none
    | some (v, r) =>
      match r.dropWhile jsonWs with
      | ',' :: r2 => parseElems fuel r2 (acc ++ [v])
      | ']' :: r2 => some (JsonVal.arr (acc ++ [v]), r2)
      | _ => none

end

/-- Model of Python `json.loads` on a string: parse one value surrounded by
optional whitespace, rejecting trailing garbage. -/
def jsonParse (s : String) : Option JsonVal :=
  match parseValue (3 * s.data.length + 3) s.data with
  | some (v, rest) => if rest.dropWhile jsonWs = [] then some v else none
  | none => none

/-! ### Tolerant JSON decoding

Two decoders exist in the source: `safe_parse_json`
(backend/app/tasks/document_tasks.py) and
`DocumentTypeAnalyzer._extract_json_from_text`
(backend/app/agent/document_type_analyzer.py). -/

/-- Model of `re.sub(r",(\s*[}\]])", r"\1", text)`: drop each comma that is
followed by only whitespace and a closing brace/bracket, scanning left to
right and resuming after each match (fuel-indexed to keep the recursion
structural; `fuel = length` always suffices). -/
def removeTrailingCommasAux : Nat → List Char → List Char
  | 0, l => l
  | _ + 1, [] => []
  | fuel + 1, ',' :: rest =>
    (match rest.dropWhile pyWs with
     | b :: tail =>
       if b = '}' ∨ b = ']' then rest.takeWhile pyWs ++ b :: removeTrailingCommasAux fuel tail
       else ',' :: removeTrailingCommasAux fuel rest
     | [] => ',' :: rest)
  | fuel + 1, c :: rest => c :: removeTrailingCommasAux fuel rest

/-- `re.sub(r",(\s*[}\]])", r"\1", text)` on a string. -/
def removeTrailingCommas (s : String) : String :=
  String.mk (removeTrailingCommasAux s.data.length s.data)

/-- `re.sub(r"^```(?:json)?", "", text)`: without MULTILINE the anchor only
matches at the start, so at most one leading fence marker is removed (the
`json` tag greedily included when present). -/
def stripLeadFence (s : String) : String :=
  match s.data with
  | '`' :: '`' :: '`' :: 'j' :: 's' :: 'o' :: 'n' :: rest => String.mk rest
  | '`' :: '`' :: '`' :: rest => String.mk rest
  | _ => s

/-- `re.sub(r"```$", "", text)`: `$` matches at the very end or just before
a final newline, so a trailing fence marker in either position is removed. -/
def stripTrailFence (s : String) : String :=
  match s.data.reverse with
  | '`' :: '`' :: '`' :: rest => String.mk rest.reverse
  | '\n' :: '`' :: '`' :: '`' :: rest => String.mk ('\n' :: rest).reverse
  | _ => s

/-- `re.search(r"(\{.*\})", text, re.DOTALL)`: greedy match from the first
`\x7b` that has a later `\x7d` through the last `\x7d` of the input. -/
def braceSpanGreedy : List Char → Option (List Char)
  | [] => none
  | '{' :: rest =>
    if rest.contains '}' then
      some ('{' :: (rest.reverse.dropWhile (· ≠ '}')).reverse)
    else braceSpanGreedy rest
  | _ :: rest => braceSpanGreedy rest

/-- Python `str.replace(old, new)` for the 4-character token `None`. -/
def replaceNoneWithNull : List Char → List Char
  | 'N' :: 'o' :: 'n' :: 'e' :: rest => 'n' :: 'u' :: 'l' :: 'l' :: replaceNoneWithNull rest
  | c :: rest => c :: replaceNoneWithNull rest
  | [] => []

/-- Python `str.replace(old, new)` for the 4-character token `NULL`. -/
def replaceUpperNullWithNull : List Char → List Char
  | 'N' :: 'U' :: 'L' :: 'L' :: rest => 'n' :: 'u' :: 'l' :: 'l' :: replaceUpperNullWithNull rest
  | c :: rest => c :: replaceUpperNullWithNull rest
  | [] => []

/-- Model of `re.sub(r":\s*,", ": null,", text)` (fuel-indexed as in
`removeTrailingCommasAux`). -/
def fixColonCommaAux : Nat → List Char → List Char
  | 0, l => l
  | _ + 1, [] => []
  | fuel + 1, ':' :: rest =>
    (match rest.dropWhile pyWs with
     | ',' :: tail => ':' :: ' ' :: 'n' :: 'u' :: 'l' :: 'l' :: ',' :: fixColonCommaAux fuel tail
     | _ => ':' :: fixColonCommaAux fuel rest)
  | fuel + 1, c :: rest => c :: fixColonCommaAux fuel rest

/-- Last-resort sanitization stage of `_extract_json_from_text`: textual
`None`/`NULL` → `null`, then `: ,` → `: null,`, then one more parse; a final
failure raises `ValueError`, modelled as `Except.error`. -/
def lastResortParse (t : String) : Except String JsonVal :=
  let t1 := String.mk (replaceUpperNullWithNull (replaceNoneWithNull t.data))
  let t2 := String.mk (fixColonCommaAux t1.data.length t1.data)
  match jsonParse t2 with
  | some v => Except.ok v
  | none => Except.error "Failed to parse valid JSON from model output"

/-- `DocumentTypeAnalyzer._extract_json_from_text` (document_type_analyzer.py):
strip fences, drop trailing commas, parse; on failure retry on the greedy
`\x7b...\x7d` span; on failure sanitize null-like tokens and retry; raises
(`Except.error`) when the input is empty or every attempt fails. -/
def extract_json_from_text (text : String) : Except String JsonVal :=
  if text = "" ∨ pyStrip text = "" then Except.error "Empty or invalid response text"
  else
    let t1 := pyStrip text
    let t2 := stripTrailFence (stripLeadFence t1)
    let t3 := pyStrip t2
    let t4 := removeTrailingCommas t3
    match jsonParse t4 with
    | some v => Except.ok v
    | none =>
      match braceSpanGreedy t4.data with
      | some inner =>
        let inner2 := removeTrailingCommas (String.mk inner)
        match jsonParse inner2 with
        | some v => Except.ok v
        | none => lastResortParse t4
      | none => lastResortParse t4

/-- Whether, at this point of the input, the remainder consists of
whitespace followed by a closing fence — the `\s*```` ``` `` suffix of the
fenced-block pattern. -/
def closingFenceFollows (l : List Char) : Bool :=
  match l.dropWhile pyWs with
  | '`' :: '`' :: '`' :: _ => true
  | _ => false

/-- Lazy `.*?\}` scan of the fenced-block pattern: close at the earliest
`\x7d` whose remainder matches `\s*```` ``` ``, otherwise consume the
character and continue. -/
def lazyCloseFence : List Char → Option (List Char)
  | [] => none
  | c :: rest =>
    if c = '}' ∧ closingFenceFollows rest then some ['}']
    else (lazyCloseFence rest).map (c :: ·)

/-- One attempt of `` r"```(?:json)?\s*(\{.*?\})\s*```" `` anchored at the
current position (DOTALL). -/
def fenceTryAt (l : List Char) : Option (List Char) :=
  match l with
  | '`' :: '`' :: '`' :: rest =>
    let rest2 := match rest with
      | 'j' :: 's' :: 'o' :: 'n' :: r => r
      | _ => rest
    (match rest2.dropWhile pyWs with
     | '{' :: body => (lazyCloseFence body).map ('{' :: ·)
     | _ => none)
  | _ => none

/-- `re.search` of the fenced-block pattern: leftmost successful attempt. -/
def searchFencedAux : List Char → Option (List Char)
  | [] => none
  | c :: rest =>
    match fenceTryAt (c :: rest) with
    | some cap => some cap
    | none => searchFencedAux rest

/-- The sentinel object `safe_parse_json` returns when parsing fails. -/
def sentinelObj (raw : String) : JsonVal :=
  JsonVal.obj [("error", JsonVal.str "Invalid JSON"), ("raw_output", JsonVal.str raw)]

/-- The string `safe_parse_json` hands to `json.loads`: the fenced-block
capture group when the pattern matches, the stripped input otherwise. -/
def spjCandidate (raw : String) : String :=
  match searchFencedAux raw.data with
  | some cap => String.mk cap
  | none => pyStrip raw

/-- `safe_parse_json` (document_tasks.py) on a string input: parse the
candidate; any failure is caught and the sentinel object is returned. -/
def safe_parse_json (raw : String) : JsonVal :=
  match jsonParse (spjCandidate raw) with
  | some v => v
  | none => sentinelObj raw

/-! ### Ingestion pipelines

`process_document_in_background` (backend/app/tasks/document_tasks.py) and
`DocumentService._process_document_background`
(backend/app/services/document_service.py).  Oracle calls and the store are
modelled by an environment: `none` for an oracle field means that call
raised; `bulkInsertOk = false` means `bulk_create_variables` raised. -/

/-- Document status values written by the pipelines. -/
inductive Status where
  | uploaded
  | processing
  | completed
  | failed
deriving DecidableEq, Repr

/-- Environment of one run of `process_document_in_background`:
`extractedText` is the result of `safe_extract_text` (which catches its own
errors and returns `""`), the oracle fields model `classifier_agent.process`,
`summarizer.process` and `entity_extractor.process`.  The entity extractor
returns `json.loads` of its JSON-mode reply, i.e. an already-parsed dict. -/
structure TaskEnv where
  extractedText : String
  classifyResult : Option String
  summaryResult : Option String
  entitiesResult : Option (List (String × JsonVal))
  bulkInsertOk : Bool

/-- Observable outcome of one `process_document_in_background` run: the
sequence of `status` writes and what each later stage consumed/produced. -/
structure TaskOutcome where
  statusWrites : List Status
  classifyCalled : Bool
  gatherCalled : Bool
  docTypeUsed : String
  summaryUsed : String
  entitiesUsed : JsonVal
  variablesSaved : Bool
  insightsWritten : Bool

/-- `process_document_in_background` (document_tasks.py).  Control flow from
the source: write `processing`; halt with `failed` when the extracted text
is falsy or its stripped length is under 20; classification failure degrades
to `"unknown"`; a failure of either gathered call replaces the pair with the
placeholders (`asyncio.gather` propagates the first exception, so both
results are lost); entity parsing goes through `safe_parse_json` (a dict
passes through unchanged); the variable bulk insert is wrapped in its own
`try`, so its failure does not affect the final `completed` write. -/
def processDocumentInBackground (env : TaskEnv) : TaskOutcome :=
  let text := env.extractedText
  if text = "" ∨ (pyStrip text).length < 20 then
    { statusWrites := [Status.processing, Status.failed]
      classifyCalled := false, gatherCalled := false
      docTypeUsed := "", summaryUsed := "", entitiesUsed := JsonVal.null
      variablesSaved := false, insightsWritten := false }
  else
    let docType := match env.classifyResult with
      | some t => pyLower (pyStrip t)
      | none => "unknown"
    let gathered : String × (List (String × JsonVal) ⊕ String) :=
      match env.summaryResult, env.entitiesResult with
      | some s, some d => (s, Sum.inl d)
      | _, _ => ("Failed to generate summary", Sum.inr "\x7b\x7d")
    let entities : JsonVal := match gathered.2 with
      | Sum.inl d => JsonVal.obj d
      | Sum.inr s => safe_parse_json s
    let entitiesNonempty : Bool := match entities with
      | JsonVal.obj kvs => !kvs.isEmpty
      | _ => false
    { statusWrites := [Status.processing, Status.completed]
      classifyCalled := true, gatherCalled := true
      docTypeUsed := docType, summaryUsed := gathered.1, entitiesUsed := entities
      variablesSaved := entitiesNonempty && env.bulkInsertOk
      insightsWritten := true }

/-- Result of `analyze_document_text` (document_agent.py) as consumed by
`DocumentService._process_document_background`: the call raised, or returned
the `\x7berror: ...\x7d` fallback dict, or returned a parsed analysis whose
`fields` list feeds the variable bulk insert. -/
inductive SvcAnalysis where
  | raised
  | errored
  | ok (fields : List (String × String))
deriving DecidableEq, Repr

/-- Environment of one `DocumentService._process_document_background` run. -/
structure SvcEnv where
  extractedText : String
  analysis : SvcAnalysis
  bulkInsertOk : Bool

/-- Status writes of `DocumentService._process_document_background`
(document_service.py).  Control flow from the source: write `processing`;
`failed` and halt when the stripped text is empty or the analysis fails;
otherwise write `completed` (with insights) and then bulk-insert the
analysis fields — that insert is *not* separately guarded, so its failure
reaches the outer handler, which writes `failed`. -/
def svcProcessDocumentBackground (env : SvcEnv) : List Status :=
  Status.processing ::
    (if pyStrip env.extractedText = "" then [Status.failed]
     else match env.analysis with
       | SvcAnalysis.raised => [Status.failed]
       | SvcAnalysis.errored => [Status.failed]
       | SvcAnalysis.ok fields =>
         Status.completed ::
           (if !fields.isEmpty && !env.bulkInsertOk then [Status.failed] else []))

/-! ### Org-scoped document reads (document_service.py) -/

/-- One `Document` row as read by the service layer. -/
structure DocRec where
  id : String
  orgId : String
  insights : Option String
deriving DecidableEq, Repr

/-- One `DocumentVariable` row. -/
structure DocVarRec where
  documentId : String
  name : String
  value : String
deriving DecidableEq, Repr

/-- The record store as seen by `DocumentService`. -/
structure DbState where
  documents : List DocRec
  docVariables : List DocVarRec
deriving DecidableEq, Repr

/-- `DocumentService.get_document_fields`: fetch by id, raise 403 when the
document is missing or belongs to another org, else return the document's
variables. -/
def get_document_fields (dbs : DbState) (docId orgId : String) :
    Except Nat (List DocVarRec) :=
  match dbs.documents.find? (fun d => d.id = docId) with
  | none => Except.error 403
  | some d =>
    if d.orgId ≠ orgId then Except.error 403
    else Except.ok (dbs.docVariables.filter (fun v => v.documentId = docId))

/-- `DocumentService.get_document_insights`: same org guard, then
`json.loads(doc.insights or "\x7b\x7d")`; a `json.loads` failure is uncaught
(modelled as error 500). -/
def get_document_insights (dbs : DbState) (docId orgId : String) :
    Except Nat JsonVal :=
  match dbs.documents.find? (fun d => d.id = docId) with
  | none => Except.error 403
  | some d =>
    if d.orgId ≠ orgId then Except.error 403
    else match jsonParse (d.insights.getD "\x7b\x7d") with
      | some v => Except.ok v
      | none => Except.error 500

/-! ### Prefill / question generation (prefill_services.py) -/

/-- One `TemplateVariable` row. -/
structure TplVar where
  key : String
  label : String
  description : String
  exampleStr : String
  required : Bool
deriving DecidableEq, Repr

/-- One `Template` row with its owned variables, in declaration order. -/
structure Template where
  id : String
  orgId : String
  tplVariables : List TplVar
deriving DecidableEq, Repr

/-- `GenerateQuestionsRequest` (models.py): template id plus the keys of the
caller's `filled_variables` dict.  Note it carries no org id. -/
structure GenQReq where
  templateId : String
  filledKeys : List String
deriving DecidableEq, Repr

/-- One entry of the `missing_variables_questions` response list. -/
structure QuestionOut where
  key : String
  question : String
  exampleStr : String
deriving DecidableEq, Repr

/-- `generate_questions` (prefill_services.py).  The template is fetched by
id only — the `where` clause has no `orgId`.  `missing_vars` and the task
list are built by two separate passes with the same required-and-unfilled
condition; `asyncio.gather` yields results in task order, so the gather step
is the identity on the dispatched list; the response zips `missing_vars`
with the gathered questions.  `oracle label description` models one
`question_generator_agent.process` call. -/
def generate_questions (store : List Template) (req : GenQReq)
    (oracle : String → String → String) : Except Nat (List QuestionOut) :=
  match store.find? (fun t => t.id = req.templateId) with
  | none => Except.error 404
  | some tpl =>
    let missingVars := tpl.tplVariables.filter
      (fun v => v.required && !req.filledKeys.contains v.key)
    let tasks := tpl.tplVariables.filterMap
      (fun v => if v.required && !req.filledKeys.contains v.key
                then some (oracle v.label v.description) else none)
    let generatedQuestions := tasks
    Except.ok ((missingVars.zip generatedQuestions).map
      (fun p => { key := p.1.key, question := p.2, exampleStr := p.1.exampleStr }))

/-! ### Bootstrap pipeline (bootstrap_agent.py) -/

/-- One search-oracle result (`fetch_public_examples` output item). -/
structure Exemplar where
  title : String
  url : String
  text : String
deriving DecidableEq, Repr

/-- Exemplar selection of `WebBootstrapAgent.bootstrap_template`: empty list
fails; the first result is kept unless its text is falsy or its stripped
length is under 100, in which case the second result is taken *without any
length check* when present, and the pipeline fails when absent. -/
def pickExemplar : List Exemplar → Option Exemplar
  | [] => none
  | e0 :: rest =>
    if e0.text = "" ∨ (pyStrip e0.text).length < 100 then
      match rest with
      | e1 :: _ => some e1
      | [] => none
    else some e0

/-- `WebBootstrapAgent.bootstrap_template`, with the templatizer oracle as a
parameter (`none` models an empty templatizer reply, which makes the source
return `None`; the downstream YAML parse and field-defaulting steps always
produce a record, so the returned template is determined by the chosen
exemplar and the templatizer markdown). -/
def bootstrapTemplate (templatize : String → Option String)
    (examples : List Exemplar) : Option (Exemplar × String) :=
  (pickExemplar examples).bind fun ex =>
    (templatize ex.text).map fun md => (ex, md)

/-! ### Document type registry (document_type_analyzer.py) -/

/-- The two-stage analysis result consumed by
`get_or_create_document_type`; `confidence` is modelled as a rational. -/
structure AnalysisRes where
  documentType : String
  confidence : ℚ
  category : String
deriving DecidableEq, Repr

/-- One `DocumentType` row. -/
structure DocTypeRec where
  id : String
  name : String
  category : String
deriving DecidableEq, Repr

/-- `DocumentTypeAnalyzer.get_or_create_document_type`: return no id when
the type is `"Unknown"` or the confidence is below 0.3; otherwise reuse an
existing row of the same name or create a new one (`newId` stands for the
store-generated id).  Returns the id (if any) and the new store contents. -/
def getOrCreateDocumentType (newId : String) (store : List DocTypeRec)
    (a : AnalysisRes) : Option String × List DocTypeRec :=
  if a.documentType = "Unknown" ∨ a.confidence < 3/10 then (none, store)
  else match store.find? (fun t => t.name = a.documentType) with
    | some t => (some t.id, store)
    | none =>
      let newRec : DocTypeRec := { id := newId, name := a.documentType, category := a.category }
      (some newRec.id, store ++ [newRec])

end Prelexa

-- sanity examples (concrete evaluations of the json.loads model)
example : Prelexa.jsonParse "\x7b\"a\": 1\x7d" =
    some (Prelexa.JsonVal.obj [("a", Prelexa.JsonVal.num 1)]) := rfl
example : Prelexa.jsonParse "\x7b\"a\": 1,\x7d" = none := rfl
example : Prelexa.jsonParse "The answer is maybe." = none := rfl
example : Prelexa.jsonParse "" = none := rfl
example : Prelexa.jsonParse "\x7b\x7d" = some (Prelexa.JsonVal.obj []) := rfl

-- sanity examples for the two decoders
example : Prelexa.extract_json_from_text "```json\n\x7b\"a\": 1,\x7d\n```" =
    Except.ok (Prelexa.JsonVal.obj [("a", Prelexa.JsonVal.num 1)]) := rfl
example : Prelexa.extract_json_from_text "" =
    Except.error "Empty or invalid response text" := rfl
example : Prelexa.extract_json_from_text "The answer is maybe." =
    Except.error "Failed to parse valid JSON from model output" := rfl
example : Prelexa.safe_parse_json "The answer is maybe." =
    Prelexa.sentinelObj "The answer is maybe." := rfl
example : Prelexa.safe_parse_json "```json\n\x7b\"a\": 1,\x7d\n```" =
    Prelexa.sentinelObj "```json\n\x7b\"a\": 1,\x7d\n```" := rfl
example : Prelexa.safe_parse_json "```json\n\x7b\"a\": 1\x7d\n```" =
    Prelexa.JsonVal.obj [("a", Prelexa.JsonVal.num 1)] := rfl
example : Prelexa.safe_parse_json "\x7b\x7d" = Prelexa.JsonVal.obj [] := rfl

namespace Prelexa

/-- `pyStrip` of the empty string is empty. -/
theorem pyStrip_empty : pyStrip "" = "" := rfl

/-- A `filterMap` whose function is an if-guarded `some` is the `map` over
the corresponding `filter`. -/
theorem list_filterMap_if {α β : Type} (l : List α) (p : α → Bool) (f : α → β) :
    l.filterMap (fun a => if p a then some (f a) else none) = (l.filter p).map f := by
  induction l with
  | nil => rfl
  | cons a t ih =>
    cases hp : p a <;>
      simp [List.filterMap_cons, List.filter_cons, hp, ih]

/-- Zipping a list with its own image under `f` and mapping `g` is a single
map. -/
theorem list_zip_map_self {α β γ : Type} (l : List α) (f : α → β) (g : α × β → γ) :
    (l.zip (l.map f)).map g = l.map (fun a => g (a, f a)) := by
  induction l with
  | nil => rfl
  | cons a t ih => simp [List.zip_cons_cons, ih]

end Prelexa

namespace Prelexa

/-! ### Claim C1 -/

/-- C1 (counterexample): the tolerant decoding surface is not raise-free.
The claim asserts that for every input string — the empty string included —
the decoder returns a parsed value or the sentinel object and never raises;
but `_extract_json_from_text`, one of the two functions realizing the
decoder, raises `ValueError` on the empty string instead of producing
either. -/
theorem extract_json_raises_on_empty_input :
    extract_json_from_text "" = Except.error "Empty or invalid response text" := rfl

/-- C1 (amended): the never-raises / sentinel contract holds of
`safe_parse_json`: for every input string it returns the successfully
parsed candidate value, or else exactly the sentinel object
`\x7berror: "Invalid JSON", raw_output: raw\x7d`. -/
theorem safe_parse_json_total (raw : String) :
    (∃ v, jsonParse (spjCandidate raw) = some v ∧ safe_parse_json raw = v) ∨
      safe_parse_json raw = sentinelObj raw := by
  unfold safe_parse_json
  cases h : jsonParse (spjCandidate raw) with
  | none => exact Or.inr rfl
  | some v => exact Or.inl ⟨v, rfl, rfl⟩

/-! ### Claim C2 -/

/-- C2: when the extracted text strips to fewer than 20 characters
(whitespace-only and empty inputs included), `process_document_in_background`
writes `processing` then `failed` and halts: no classification, no
summarization/entity-extraction dispatch, no variable save, no insights
write. -/
theorem short_extraction_halts_pipeline (env : TaskEnv)
    (h : (pyStrip env.extractedText).length < 20) :
    (processDocumentInBackground env).statusWrites = [Status.processing, Status.failed] ∧
      (processDocumentInBackground env).classifyCalled = false ∧
      (processDocumentInBackground env).gatherCalled = false ∧
      (processDocumentInBackground env).variablesSaved = false ∧
      (processDocumentInBackground env).insightsWritten = false := by
  unfold processDocumentInBackground
  rw [if_pos (Or.inr h)]
  exact ⟨rfl, rfl, rfl, rfl, rfl⟩

/-- C2 (witness): a whitespace-only extraction halts a concrete run. -/
theorem short_extraction_halts_pipeline_witness :
    (pyStrip "   ").length < 20 ∧
      (processDocumentInBackground
        ⟨"   ", some "invoice", some "a summary", some [], true⟩).statusWrites =
        [Status.processing, Status.failed] :=
  ⟨by decide,
   (short_extraction_halts_pipeline
     ⟨"   ", some "invoice", some "a summary", some [], true⟩ (by decide)).1⟩

/-! ### Claim C3 -/

/-- C3 (counterexample): in `DocumentService._process_document_background`,
a successful run whose `DocumentVariable` bulk insert raises writes
`processing`, then `completed`, then `failed` — the bulk-insert failure
reaches the outer handler and reverts the document from `completed` to
`failed`, contradicting the claimed monotonicity. -/
theorem svc_bulk_insert_failure_reverts_completed :
    svcProcessDocumentBackground
      ⟨"A sufficiently long extracted document text.",
       SvcAnalysis.ok [("invoice_number", "123")], false⟩ =
      [Status.processing, Status.completed, Status.failed] := rfl

/-- C3 (amended): the `process_document_in_background` pipeline of
document_tasks.py is status-monotonic: every run writes `processing`
followed by exactly one terminal status, so nothing — in particular no
variable bulk-insert failure, which that pipeline guards with its own
`try` *before* the final update — changes a terminal status afterwards. -/
theorem task_pipeline_status_monotone (env : TaskEnv) :
    (processDocumentInBackground env).statusWrites = [Status.processing, Status.failed] ∨
      (processDocumentInBackground env).statusWrites = [Status.processing, Status.completed] := by
  by_cases hc : env.extractedText = "" ∨ (pyStrip env.extractedText).length < 20
  · refine Or.inl ?_
    simp only [processDocumentInBackground]
    rw [if_pos hc]
  · refine Or.inr ?_
    simp only [processDocumentInBackground]
    rw [if_neg hc]

/-! ### Claim C4 -/

/-- C4 (counterexample): with the summarizer raising and the entity
extractor succeeding with `\x7bparties: ["X"]\x7d`, the pipeline consumes
an empty entity map — the successful branch's result is *not* kept, because
`asyncio.gather` propagates the exception and the handler replaces both
results. -/
theorem gather_failure_discards_successful_entities :
    (processDocumentInBackground
      ⟨"A sufficiently long extracted document text.", some "contract", none,
       some [("parties", JsonVal.arr [JsonVal.str "X"])], true⟩).entitiesUsed =
      JsonVal.obj [] ∧
    JsonVal.obj ([] : List (String × JsonVal)) ≠
      JsonVal.obj [("parties", JsonVal.arr [JsonVal.str "X"])] := by
  refine ⟨rfl, fun h => ?_⟩
  have : ([] : List (String × JsonVal)) = [("parties", JsonVal.arr [JsonVal.str "X"])] :=
    JsonVal.obj.inj h
  exact List.noConfusion this

/-- C4 (amended): when extraction succeeded and either gathered call raises,
*both* branches are replaced — the summary becomes the placeholder and the
entities become the empty map — and the pipeline still completes. -/
theorem gather_failure_replaces_both_branches (env : TaskEnv)
    (hlen : 20 ≤ (pyStrip env.extractedText).length)
    (hfail : env.summaryResult = none ∨ env.entitiesResult = none) :
    (processDocumentInBackground env).summaryUsed = "Failed to generate summary" ∧
      (processDocumentInBackground env).entitiesUsed = JsonVal.obj [] ∧
      (processDocumentInBackground env).statusWrites =
        [Status.processing, Status.completed] := by
  have hcond : ¬(env.extractedText = "" ∨ (pyStrip env.extractedText).length < 20) := by
    rintro (h | h)
    · rw [h] at hlen; exact absurd hlen (by decide)
    · omega
  rcases hfail with h | h
  · rcases hen : env.entitiesResult with _ | d <;>
      · simp only [processDocumentInBackground, h, hen]
        rw [if_neg hcond]
        exact ⟨rfl, rfl, rfl⟩
  · rcases hsm : env.summaryResult with _ | s <;>
      · simp only [processDocumentInBackground, h, hsm]
        rw [if_neg hcond]
        exact ⟨rfl, rfl, rfl⟩

/-- C4 (witness): a concrete run with a raising summarizer and succeeding
entity extractor completes with both placeholders substituted. -/
theorem gather_failure_replaces_both_branches_witness :
    20 ≤ (pyStrip "A sufficiently long extracted document text.").length ∧
      (processDocumentInBackground
        ⟨"A sufficiently long extracted document text.", some "contract", none,
         some [("dates", JsonVal.arr [])], true⟩).summaryUsed =
        "Failed to generate summary" :=
  ⟨by decide,
   (gather_failure_replaces_both_branches
     ⟨"A sufficiently long extracted document text.", some "contract", none,
      some [("dates", JsonVal.arr [])], true⟩ (by decide) (Or.inl rfl)).1⟩

end Prelexa

namespace Prelexa

/-! ### Claim C5 -/

/-- C5 (counterexample): `generate_questions` is a read path over templates
(org-scoped records) that performs no org filtering at all: its request
carries no org id, and its result on a template owned by `org-a` is
identical to its result on the same template owned by `org-b` — data is
returned rather than any mismatch being rejected as unauthorized. -/
theorem generate_questions_ignores_template_org :
    generate_questions
        [{ id := "tpl-1", orgId := "org-a",
           tplVariables := [{ key := "policy_number", label := "Policy number",
                              description := "Policy reference", exampleStr := "POL-1",
                              required := true }] }]
        { templateId := "tpl-1", filledKeys := [] }
        (fun label _ => "What is " ++ label ++ "?") =
      generate_questions
        [{ id := "tpl-1", orgId := "org-b",
           tplVariables := [{ key := "policy_number", label := "Policy number",
                              description := "Policy reference", exampleStr := "POL-1",
                              required := true }] }]
        { templateId := "tpl-1", filledKeys := [] }
        (fun label _ => "What is " ++ label ++ "?") ∧
    generate_questions
        [{ id := "tpl-1", orgId := "org-a",
           tplVariables := [{ key := "policy_number", label := "Policy number",
                              description := "Policy reference", exampleStr := "POL-1",
                              required := true }] }]
        { templateId := "tpl-1", filledKeys := [] }
        (fun label _ => "What is " ++ label ++ "?") =
      Except.ok [{ key := "policy_number", question := "What is Policy number?",
                   exampleStr := "POL-1" }] :=
  ⟨rfl, rfl⟩

/-- C5 (amended): the `DocumentService` document paths do enforce the org
scope — they return data only when the document exists and its `orgId`
equals the caller's (shown here for the fields and insights reads); the
prefill/question-generation template reads perform no such check. -/
theorem document_reads_require_matching_org :
    (∀ (dbs : DbState) (docId orgId : String) (vs : List DocVarRec),
        get_document_fields dbs docId orgId = Except.ok vs →
          ∃ d, dbs.documents.find? (fun d => d.id = docId) = some d ∧ d.orgId = orgId) ∧
    (∀ (dbs : DbState) (docId orgId : String) (v : JsonVal),
        get_document_insights dbs docId orgId = Except.ok v →
          ∃ d, dbs.documents.find? (fun d => d.id = docId) = some d ∧ d.orgId = orgId) := by
  constructor
  · intro dbs docId orgId vs h
    cases hfind : dbs.documents.find? (fun d => d.id = docId) with
    | none =>
      simp only [get_document_fields, hfind] at h
      exact Except.noConfusion h
    | some d =>
      by_cases horg : d.orgId = orgId
      · exact ⟨d, rfl, horg⟩
      · simp only [get_document_fields, hfind, if_pos horg] at h
        exact Except.noConfusion h
  · intro dbs docId orgId v h
    cases hfind : dbs.documents.find? (fun d => d.id = docId) with
    | none =>
      simp only [get_document_insights, hfind] at h
      exact Except.noConfusion h
    | some d =>
      by_cases horg : d.orgId = orgId
      · exact ⟨d, rfl, horg⟩
      · simp only [get_document_insights, hfind, if_pos horg] at h
        exact Except.noConfusion h

/-- C5 (witness): the org guard fires on a concrete store: a successful
fields read of `doc-1` by `org-a` proves the stored document carries
`org-a`. -/
theorem document_reads_require_matching_org_witness :
    ∃ d, (DbState.mk [{ id := "doc-1", orgId := "org-a", insights := none }]
            []).documents.find? (fun d => d.id = "doc-1") = some d ∧
      d.orgId = "org-a" :=
  document_reads_require_matching_org.1
    (DbState.mk [{ id := "doc-1", orgId := "org-a", insights := none }] [])
    "doc-1" "org-a" [] rfl

/-! ### Claim C6 -/

/-- C6: `generate_questions` returns exactly one question per variable that
is required and unfilled, keyed and ordered by the template's variable
declaration order, each question being the oracle's answer for that
variable — in particular the output order is the declaration order, not the
completion order of the concurrent calls (`asyncio.gather` returns results
in dispatch order). -/
theorem generate_questions_ordered_and_complete
    (store : List Template) (req : GenQReq) (oracle : String → String → String)
    (tpl : Template)
    (hfind : store.find? (fun t => t.id = req.templateId) = some tpl) :
    generate_questions store req oracle =
      Except.ok
        ((tpl.tplVariables.filter
            (fun v => v.required && !req.filledKeys.contains v.key)).map
          (fun v => { key := v.key, question := oracle v.label v.description,
                      exampleStr := v.exampleStr })) := by
  simp only [generate_questions, hfind]
  rw [list_filterMap_if tpl.tplVariables
      (fun v => v.required && !req.filledKeys.contains v.key)
      (fun v => oracle v.label v.description)]
  rw [list_zip_map_self]

set_option maxRecDepth 8192

/-- C6 (witness): a template declaring `policy_number`, `claimant_name`,
`court_date`, `notes` (the first three required) with `claimant_name`
already filled yields exactly the two questions for `policy_number` and
`court_date`, in declaration order. -/
theorem generate_questions_ordered_and_complete_witness :
    generate_questions
        [{ id := "tpl-1", orgId := "org-a",
           tplVariables :=
             [{ key := "policy_number", label := "Policy number",
                description := "Policy reference", exampleStr := "POL-123",
                required := true },
              { key := "claimant_name", label := "Claimant name",
                description := "Full name", exampleStr := "Jane Doe",
                required := true },
              { key := "court_date", label := "Court date",
                description := "Hearing date", exampleStr := "2024-01-01",
                required := true },
              { key := "notes", label := "Notes",
                description := "Optional notes", exampleStr := "",
                required := false }] }]
        { templateId := "tpl-1", filledKeys := ["claimant_name"] }
        (fun label _ => "What is " ++ label ++ "?") =
      Except.ok
        [{ key := "policy_number", question := "What is Policy number?",
           exampleStr := "POL-123" },
         { key := "court_date", question := "What is Court date?",
           exampleStr := "2024-01-01" }] := by
  have h := generate_questions_ordered_and_complete
    [{ id := "tpl-1", orgId := "org-a",
       tplVariables :=
         [{ key := "policy_number", label := "Policy number",
            description := "Policy reference", exampleStr := "POL-123",
            required := true },
          { key := "claimant_name", label := "Claimant name",
            description := "Full name", exampleStr := "Jane Doe",
            required := true },
          { key := "court_date", label := "Court date",
            description := "Hearing date", exampleStr := "2024-01-01",
            required := true },
          { key := "notes", label := "Notes",
            description := "Optional notes", exampleStr := "",
            required := false }] }]
    { templateId := "tpl-1", filledKeys := ["claimant_name"] }
    (fun label _ => "What is " ++ label ++ "?") _ rfl
  exact h.trans rfl

/-! ### Claim C7 -/

/-- C7 (counterexample): with two search results both under 100 stripped
characters, the claim demands that no template be returned (no candidate
qualifies); the code instead falls back to the second result without any
length check and templatizes it. -/
theorem bootstrap_templatizes_unqualified_second_result :
    (pyStrip "A short first result, well under the cutoff.").length < 100 ∧
      (pyStrip "Too short.").length < 100 ∧
      bootstrapTemplate (fun _ => some "TEMPLATE.md")
        [{ title := "First", url := "http://a",
           text := "A short first result, well under the cutoff." },
         { title := "Second", url := "http://b", text := "Too short." }] =
        some ({ title := "Second", url := "http://b", text := "Too short." },
              "TEMPLATE.md") :=
  ⟨by decide, by decide, rfl⟩

/-- C7 (amended): exemplar selection keeps the first result when its text
strips to at least 100 characters; when the first result is too short it
falls back to the second result *unconditionally* whenever one exists; it
yields no exemplar only for an empty result list or a single too-short
result. -/
theorem pickExemplar_selection_spec :
    (∀ (e : Exemplar) (rest : List Exemplar), 100 ≤ (pyStrip e.text).length →
        pickExemplar (e :: rest) = some e) ∧
    (∀ (e e1 : Exemplar) (rest : List Exemplar), (pyStrip e.text).length < 100 →
        pickExemplar (e :: e1 :: rest) = some e1) ∧
    (∀ e : Exemplar, (pyStrip e.text).length < 100 → pickExemplar [e] = none) ∧
    pickExemplar ([] : List Exemplar) = none := by
  refine ⟨?_, ?_, ?_, rfl⟩
  · intro e rest h
    have hcond : ¬(e.text = "" ∨ (pyStrip e.text).length < 100) := by
      rintro (hh | hh)
      · rw [hh] at h; exact absurd h (by decide)
      · omega
    simp only [pickExemplar]
    rw [if_neg hcond]
  · intro e e1 rest h
    simp only [pickExemplar]
    rw [if_pos (Or.inr h)]
  · intro e h
    simp only [pickExemplar]
    rw [if_pos (Or.inr h)]

/-- C7 (witness): the three selection behaviors on concrete results — a
long-enough first result is kept, a too-short first falls back to the
second, a lone too-short result yields nothing. -/
theorem pickExemplar_selection_spec_witness :
    pickExemplar
        [{ title := "Long", url := "http://l",
           text := "This lease agreement exemplar text is intentionally long enough to pass the one hundred character minimum length requirement." }] =
      some { title := "Long", url := "http://l",
             text := "This lease agreement exemplar text is intentionally long enough to pass the one hundred character minimum length requirement." } ∧
    pickExemplar
        [{ title := "Short", url := "http://s", text := "Too short." },
         { title := "Next", url := "http://n", text := "Also short." }] =
      some { title := "Next", url := "http://n", text := "Also short." } ∧
    pickExemplar [{ title := "Short", url := "http://s", text := "Too short." }] =
      none :=
  ⟨pickExemplar_selection_spec.1 _ _ (by decide),
   pickExemplar_selection_spec.2.1 _ _ _ (by decide),
   pickExemplar_selection_spec.2.2.1 _ (by decide)⟩

/-! ### Claim C8 -/

/-- C8: the tolerant decoder (`_extract_json_from_text`) on the fenced
string with a trailing comma strips the markers, removes the comma, and
parses to `\x7ba: 1\x7d` instead of rejecting the input. -/
theorem extract_json_fenced_trailing_comma_ok :
    extract_json_from_text "```json\n\x7b\"a\": 1,\x7d\n```" =
      Except.ok (JsonVal.obj [("a", JsonVal.num 1)]) := rfl

/-! ### Claim C9 -/

/-- C9 (counterexample): an analysis classified as `"Generic Document"`
with confidence 0.5 *is* materialized — a `DocumentType` row is created
and its id returned — although the claim says the Generic Document default
must create nothing; only `"Unknown"` is gated. -/
theorem generic_document_type_materialized :
    getOrCreateDocumentType "dt-1" []
        { documentType := "Generic Document", confidence := 1/2, category := "Other" } =
      (some "dt-1", [{ id := "dt-1", name := "Generic Document", category := "Other" }]) := by
  have hcond :
      ¬((AnalysisRes.mk "Generic Document" (1/2) "Other").documentType = "Unknown" ∨
        (AnalysisRes.mk "Generic Document" (1/2) "Other").confidence < 3/10) := by
    rintro (h | h)
    · exact absurd h (by decide)
    · norm_num at h
  simp only [getOrCreateDocumentType]
  rw [if_neg hcond]
  rfl

/-- C9 (amended): `get_or_create_document_type` creates nothing and returns
no id when the type is `"Unknown"` or the confidence is below 0.3; the
`"Generic Document"` default is not excluded (see the counterexample). -/
theorem document_type_gate_unknown_or_low_confidence
    (newId : String) (store : List DocTypeRec) (a : AnalysisRes)
    (h : a.documentType = "Unknown" ∨ a.confidence < 3/10) :
    getOrCreateDocumentType newId store a = (none, store) := by
  simp only [getOrCreateDocumentType]
  rw [if_pos h]

/-- C9 (witness): an `"Unknown"` analysis leaves a concrete store untouched
and returns no id. -/
theorem document_type_gate_unknown_or_low_confidence_witness :
    getOrCreateDocumentType "dt-9"
        [{ id := "dt-1", name := "Invoice", category := "Finance" }]
        { documentType := "Unknown", confidence := 9/10, category := "Legal" } =
      (none, [{ id := "dt-1", name := "Invoice", category := "Finance" }]) :=
  document_type_gate_unknown_or_low_confidence _ _ _ (Or.inl rfl)

/-! ### Claim C10 -/

/-- C10: for a stored document whose org matches the caller and whose
`insights` column is null, the insights read returns the empty JSON object
(`json.loads("\x7b\x7d")`) rather than any error; only the missing-document
and org-mismatch branches produce one. -/
theorem null_insights_yields_empty_object
    (dbs : DbState) (docId orgId : String) (d : DocRec)
    (hfind : dbs.documents.find? (fun x => x.id = docId) = some d)
    (horg : d.orgId = orgId) (hins : d.insights = none) :
    get_document_insights dbs docId orgId = Except.ok (JsonVal.obj []) := by
  simp only [get_document_insights, hfind, hins]
  rw [if_neg (fun hne => hne horg)]
  rfl

/-- C10 (witness): a concrete null-insights document read by its own org
returns the empty object. -/
theorem null_insights_yields_empty_object_witness :
    get_document_insights
        (DbState.mk [{ id := "doc-1", orgId := "org-a", insights := none }] [])
        "doc-1" "org-a" =
      Except.ok (JsonVal.obj []) :=
  null_insights_yields_empty_object
    (DbState.mk [{ id := "doc-1", orgId := "org-a", insights := none }] [])
    "doc-1" "org-a" { id := "doc-1", orgId := "org-a", insights := none }
    rfl rfl rfl

end Prelexa
